import Mathlib

set_option maxRecDepth 20000

namespace Flowkit

/-! ## String machinery

Python str values are modelled as List Char; the regex fragments used by
Drive.extract_id are small enough to embed directly as literal-alternative
searches with a greedy character-class capture. -/

/-- Character list of a string literal (Python str values are modelled as List Char). -/
def s2l (s : String) : List Char := s.data

/-- Characters matched by the regex class [a-zA-Z0-9-_] used for Drive file IDs. -/
def idChar (c : Char) : Bool :=
  (decide ('a' ≤ c) && decide (c ≤ 'z')) || (decide ('A' ≤ c) && decide (c ≤ 'Z')) ||
    (decide ('0' ≤ c) && decide (c ≤ '9')) || decide (c = '-') || decide (c = '_')

/-- Boolean prefix test on character lists. -/
def pfx : List Char → List Char → Bool
  | [], _ => true
  | _ :: _, [] => false
  | a :: as, b :: bs => decide (a = b) && pfx as bs

/-- Python substring test: pat in s. -/
def containsSub (pat : List Char) : List Char → Bool
  | [] => pfx pat []
  | s@(_ :: rest) => pfx pat s || containsSub pat rest

/-- Match one regex alternative: the literal lit followed by a nonempty greedy run of
ID characters, anchored at the head of s; returns the captured run. -/
def matchLitAt (lit s : List Char) : Option (List Char) :=
  if pfx lit s then
    let run := (s.drop lit.length).takeWhile idChar
    if run.isEmpty then none else some run
  else none

/-- Try the alternatives of one pattern, in order, anchored at the head of s. -/
def matchAltsAt : List (List Char) → List Char → Option (List Char)
  | [], _ => none
  | lit :: lits, s =>
    match matchLitAt lit s with
    | some r => some r
    | none => matchAltsAt lits s

/-- re.search semantics: scan positions left to right, return the first match. -/
def searchLits (lits : List (List Char)) : List Char → Option (List Char)
  | [] => matchAltsAt lits []
  | c :: rest =>
    match matchAltsAt lits (c :: rest) with
    | some r => some r
    | none => searchLits lits rest

/-! ## Drive.extract_id (src/src/gutils/drive.py) -/

/-- Pattern /(?:spreadsheets|document|presentation|forms)/d/([a-zA-Z0-9-_]+) as ordered literal alternatives. -/
def pat1 : List (List Char) :=
  [s2l "/spreadsheets/d/", s2l "/document/d/", s2l "/presentation/d/", s2l "/forms/d/"]

/-- Pattern /file/d/([a-zA-Z0-9-_]+). -/
def pat2 : List (List Char) := [s2l "/file/d/"]

/-- Pattern [?&]id=([a-zA-Z0-9-_]+): the character class expands to two alternatives. -/
def pat3 : List (List Char) := [s2l "?id=", s2l "&id="]

/-- Pattern /d/([a-zA-Z0-9-_]+). -/
def pat4 : List (List Char) := [s2l "/d/"]

/-- Pattern id=([a-zA-Z0-9-_]+). -/
def pat5 : List (List Char) := [s2l "id="]

/-- The ordered pattern list of Drive.extract_id (drive.py lines 61-72). -/
def drivePatterns : List (List (List Char)) := [pat1, pat2, pat3, pat4, pat5]

/-- The for-loop of Drive.extract_id: first pattern (in order) that matches anywhere wins. -/
def firstMatch : List (List (List Char)) → List Char → Option (List Char)
  | [], _ => none
  | p :: ps, s =>
    match searchLits p s with
    | some r => some r
    | none => firstMatch ps s

/-- Drive.extract_id (drive.py lines 34-80): if the input contains no Google host marker it
is returned verbatim; otherwise the ordered regex patterns are tried and the first capture
is returned; if none matches, ValueError is raised (modelled as Except.error with the
formatted message). -/
def Drive.extract_id (url_or_id : List Char) : Except (List Char) (List Char) :=
  if containsSub (s2l "google.com") url_or_id || containsSub (s2l "drive.google.com") url_or_id ||
      containsSub (s2l "docs.google.com") url_or_id then
    match firstMatch drivePatterns url_or_id with
    | some r => Except.ok r
    | none => Except.error (s2l "Could not extract file ID from URL: " ++ url_or_id)
  else Except.ok url_or_id

/-! ## Decidable side conditions for reasoning about searchLits on shaped URLs -/

/-- True when the head of the list is not an ID character (or the list is empty):
the greedy capture [a-zA-Z0-9-_]+ stops exactly here. -/
def headNotId : List Char → Bool
  | [] => true
  | c :: _ => !idChar c

/-- Every alternative is nonempty and starts with a non-ID character, so no alternative
can begin matching inside a run of ID characters. -/
def litsHeadNonId (lits : List (List Char)) : Bool :=
  lits.all fun lit =>
    match lit with
    | [] => false
    | c :: _ => !idChar c

/-- lit can never be a prefix of id ++ suffix for any all-ID-character id:
for each split point k, either the first k characters of lit are not all ID
characters, or the rest of lit fails to be a prefix of suffix. -/
def safeLit (lit suffix : List Char) : Bool :=
  (List.range (lit.length + 1)).all fun k =>
    !((lit.take k).all idChar && pfx (lit.drop k) suffix)

/-- No alternative can match at a position d :: (id ++ suffix) with id all ID characters:
each alternative either starts with a character other than d, or its tail is safe
against every ID run followed by suffix. -/
def stradOK (lits : List (List Char)) (d : Char) (suffix : List Char) : Bool :=
  lits.all fun lit =>
    match lit with
    | [] => false
    | c :: lit2 => !decide (c = d) || safeLit lit2 suffix

/-- Every nonempty suffix position t of pre diverges from every alternative within the
concrete characters of t ++ g (neither is a prefix of the other), so no alternative can
match at any position inside pre, whatever follows g. -/
def skipOK (lits : List (List Char)) : List Char → List Char → Bool
  | [], _ => true
  | c :: pre, g =>
    (lits.all fun lit => !pfx lit ((c :: pre) ++ g) && !pfx ((c :: pre) ++ g) lit) &&
      skipOK lits pre g

/-! ## Facade boundary models (src/src/atlassian/jira.py, confluence.py, src/src/gutils/sheet.py)

Vendor SDK/HTTP calls are modelled as oracle arguments of type Except (List Char) α:
ok is a normal return, error is a raised exception with its message. A facade
operation returns Except (List Char) β where an error value would mean an exception
escaping the operation to the caller. -/

/-- Jira.get_issue (jira.py lines 58-82): reconnect if needed (self._connect catches its
own exceptions and returns a Bool), then the vendor issue call; JIRAError and any other
exception are caught and become None. -/
def Jira.get_issue (jiraConn : Bool) (connectOk : Bool)
    (issueRes : Except (List Char) (List Char)) : Except (List Char) (Option (List Char)) :=
  if !jiraConn && !connectOk then Except.ok none
  else
    match issueRes with
    | Except.ok i => Except.ok (some i)
    | Except.error _ => Except.ok none

/-- The Confluence facade session state (confluence.py lines 16-35): base_url with
trailing slashes stripped, and the optional default space key. -/
structure Confluence where
  base_url : List Char
  default_space : Option (List Char)
deriving DecidableEq

/-- Python str.rstrip for a single character. -/
def rstripChar (c : Char) (s : List Char) : List Char :=
  (s.reverse.dropWhile fun d => decide (d = c)).reverse

/-- Confluence.__init__ (confluence.py lines 16-35), restricted to the fields the claims
touch: base_url.rstrip of the trailing slash and default_space stored as given. -/
def Confluence.init (base_url : List Char) (default_space : Option (List Char)) : Confluence :=
  ⟨rstripChar '/' base_url, default_space⟩

/-- Python truthiness of an optional string: None and the empty string are falsy. -/
def pyFalsyStr : Option (List Char) → Bool
  | none => true
  | some s => s.isEmpty

/-- Python " AND ".join-style fold used for cql_parts (confluence.py line 126). -/
def joinAnd : List (List Char) → List Char
  | [] => []
  | [p] => p
  | p :: ps => p ++ s2l " AND " ++ joinAnd ps

/-- The CQL assembly of Confluence.search_content (confluence.py lines 110-126): start from
the query, resolve the effective space (explicit; else the default space when
use_default_space is set and a default is configured), append a space clause for a truthy
effective space, then a type clause for a truthy content type, and join with AND. -/
def Confluence.search_content_cql (self : Confluence) (query : List Char)
    (space_key : Option (List Char)) (content_type : Option (List Char))
    (use_default_space : Bool) : List Char :=
  let effective_space : Option (List Char) :=
    if pyFalsyStr space_key && use_default_space && !pyFalsyStr self.default_space then
      self.default_space
    else space_key
  let parts1 : List (List Char) :=
    [query] ++
      (if !pyFalsyStr effective_space then
        [s2l "space = " ++ '"' :: (effective_space.getD [] ++ ['"'])]
      else [])
  let parts2 : List (List Char) :=
    parts1 ++
      (if !pyFalsyStr content_type then
        [s2l "type = " ++ '"' :: (content_type.getD [] ++ ['"'])]
      else [])
  joinAnd parts2

/-- Confluence.search_content operation boundary (confluence.py lines 78-178): the HTTP
response is an oracle (status code and raw body) or a raised exception; exceptions are
caught and become None, a non-200 status becomes None, and a 200 response is reshaped into
a result that carries the body and the assembled CQL (search_result includes
params cql under the key query, line 166). -/
def Confluence.search_content (self : Confluence) (query : List Char)
    (space_key : Option (List Char)) (content_type : Option (List Char))
    (use_default_space : Bool) (resp : Except (List Char) (Nat × List Char)) :
    Except (List Char) (Option (List Char × List Char)) :=
  match resp with
  | Except.error _ => Except.ok none
  | Except.ok (status, body) =>
    if status = 200 then
      Except.ok
        (some (body, self.search_content_cql query space_key content_type use_default_space))
    else Except.ok none

/-- The GoogleSheets facade state (sheet.py lines 43-55). -/
structure GoogleSheets where
  spreadsheet_id : List Char
  credentials_file : List Char
  token_file : List Char
deriving DecidableEq

/-- GoogleSheets.__init__ (sheet.py lines 43-55): the spreadsheet reference is resolved
through Drive.extract_id with no try/except around it, so a ValueError raised there
propagates to the caller of the constructor (hence the Except return type). -/
def GoogleSheets.init (spreadsheet_id credentials_file token_file : List Char) :
    Except (List Char) GoogleSheets :=
  match Drive.extract_id spreadsheet_id with
  | Except.ok i => Except.ok ⟨i, credentials_file, token_file⟩
  | Except.error e => Except.error e

/-- GoogleSheets.write_cell (sheet.py lines 608-647): returns False when not authenticated;
otherwise the vendor update call is tried, True on success, HttpError and any other
exception caught and turned into False. -/
def GoogleSheets.write_cell (serviceUp : Bool) (updateRes : Except (List Char) Nat) :
    Except (List Char) Bool :=
  if !serviceUp then Except.ok false
  else
    match updateRes with
    | Except.ok _ => Except.ok true
    | Except.error _ => Except.ok false

/-! ## Credential lifecycle (GoogleSheets.authenticate, sheet.py lines 372-425) -/

/-- The observable state of a google.oauth2 Credentials object as the lifecycle code
branches on it. -/
structure Creds where
  valid : Bool
  expired : Bool
  refresh_token : Bool
deriving DecidableEq

/-- Result of one authenticate run: the returned Bool, the credential written to the token
file (none when the write block was not reached), and the credential handed to build
(none when the routine returned False before building the service). -/
structure AuthOutcome where
  result : Bool
  wrote : Option Creds
  used : Option Creds
deriving DecidableEq

/-- The test at sheet.py line 390: not creds or not creds.valid. -/
def authNeeded : Option Creds → Bool
  | none => true
  | some c => !c.valid

/-- The test at sheet.py line 391: creds and creds.expired and creds.refresh_token. -/
def canRefresh : Option Creds → Bool
  | none => false
  | some c => c.expired && c.refresh_token

/-- GoogleSheets.authenticate (sheet.py lines 372-425) and its clones in
create_spreadsheet, find_spreadsheet_by_name, delete_spreadsheet and Drive.find_by_name.
Oracles: load is the credential present after the load-try block (exceptions there are
caught, leaving None); refreshRes models creds.refresh(Request()) with ok carrying the
refreshed credential; consentRes models the InstalledAppFlow consent run, whose
FileNotFoundError and generic handlers both return False; buildOk models the build call.
The token-file write (lines 413-418) is recorded in wrote; its own exceptions are caught
with only a warning, so they do not alter control flow. -/
def GoogleSheets.authenticate (load : Option Creds) (refreshRes : Except Unit Creds)
    (consentRes : Except Unit Creds) (buildOk : Bool) : AuthOutcome :=
  if authNeeded load then
    let creds1 : Option Creds :=
      if canRefresh load then
        match refreshRes with
        | Except.ok c => some c
        | Except.error _ => none
      else load
    match creds1 with
    | none =>
      match consentRes with
      | Except.error _ => ⟨false, none, none⟩
      | Except.ok c => ⟨buildOk, some c, some c⟩
    | some c => ⟨buildOk, some c, some c⟩
  else ⟨buildOk, none, load⟩

/-! ## Name resolution (Drive.find_by_name, GoogleSheets.find_spreadsheet_by_name) -/

/-- One file entry of the Drive search response, with the fields the code reads. -/
structure DriveFile where
  name : List Char
  id : List Char
  mimeType : List Char
deriving DecidableEq

/-- Python mimeType.split of the dot, last element: the type description printed for each
candidate (drive.py lines 179 and 187). -/
def typeDesc (s : List Char) : List Char :=
  s.foldl (fun acc c => if c = '.' then [] else acc ++ [c]) []

/-- Classification step of Drive.find_by_name (drive.py lines 171-190) after the search
returns: the returned value and the candidate (name, id, type) tuples reported when the
match is ambiguous. Zero matches and multiple matches both return None to the caller;
candidates are reported only in the multiple-match branch. -/
def Drive.find_by_name_outcome (files : List DriveFile) :
    Option (List Char) × List (List Char × List Char × List Char) :=
  match files with
  | [] => (none, [])
  | [f] => (some f.id, [])
  | fs => (none, fs.map fun f => (f.name, f.id, typeDesc f.mimeType))

/-- Classification step of GoogleSheets.find_spreadsheet_by_name (sheet.py lines 231-248)
after the search returns (the query asks only for id and name fields): the returned value
and the (name, id) candidate pairs reported when the match is ambiguous. -/
def GoogleSheets.find_spreadsheet_by_name_outcome (files : List (List Char × List Char)) :
    Option (List Char) × List (List Char × List Char) :=
  match files with
  | [] => (none, [])
  | [f] => (some f.2, [])
  | fs => (none, fs)

/-- GoogleSheets.find_spreadsheet_by_name viewed from the underlying Drive files: the
request at sheet.py line 230 asks the vendor for fields "files(id, name)" only, so the
response the classification step sees is the projection of each file to its (name, id)
pair; the mimeType of the underlying file never reaches the code. -/
def GoogleSheets.find_spreadsheet_by_name_pipeline (files : List DriveFile) :
    Option (List Char) × List (List Char × List Char) :=
  GoogleSheets.find_spreadsheet_by_name_outcome (files.map fun f => (f.name, f.id))

/-! ## CSV export (src/src/utils/file_utils.py save_to_csv)

save_to_csv builds pandas.DataFrame(data[1:], columns=data[0]) and calls
to_csv(filename, index=False). For a rectangular grid of strings that call emits the
header row followed by the data rows, each terminated by a newline, with minimal
quoting: a field containing a comma, double quote, newline or carriage return is
wrapped in double quotes with inner quotes doubled. csvEncode is that writer;
csvParse reads such a file back. -/

/-- A field needs quoting when it contains the delimiter, the quote character, or a
line-break character (the csv writer QUOTE_MINIMAL rule). -/
def needsQuote (f : List Char) : Bool :=
  f.any fun c =>
    decide (c = ',') || decide (c = '"') || decide (c = '\n') || decide (c = '\r')

/-- Double every quote character (the quoted-field escaping rule). -/
def dupQuotes : List Char → List Char
  | [] => []
  | c :: rest => if c = '"' then '"' :: '"' :: dupQuotes rest else c :: dupQuotes rest

/-- Encode one CSV field with minimal quoting. -/
def encodeField (f : List Char) : List Char :=
  if needsQuote f then '"' :: (dupQuotes f ++ ['"']) else f

/-- Encode one CSV record: fields joined with commas. -/
def encodeRow : List (List Char) → List Char
  | [] => []
  | [f] => encodeField f
  | f :: fs => encodeField f ++ ',' :: encodeRow fs

/-- Encode a grid: each record terminated by a newline. -/
def csvEncode : List (List (List Char)) → List Char
  | [] => []
  | r :: rs => encodeRow r ++ '\n' :: csvEncode rs

/-- save_to_csv (file_utils.py lines 10-28) on its success path: returns True and the file
content written for the grid (header row = data[0], data rows = data[1:]). -/
def save_to_csv (data : List (List (List Char))) : Bool × List Char :=
  (true, csvEncode data)

/-- Parse one unquoted field: everything up to a comma or newline. -/
def parseFieldU : List Char → List Char × List Char
  | [] => ([], [])
  | c :: rest =>
    if c = ',' ∨ c = '\n' then ([], c :: rest)
    else
      let p := parseFieldU rest
      (c :: p.1, p.2)

/-- Parse the remainder of a quoted field (after the opening quote): a doubled quote is a
literal quote, a single quote closes the field. -/
def parseFieldQ : List Char → Option (List Char × List Char)
  | [] => none
  | c :: rest =>
    if c = '"' then
      match rest with
      | [] => some ([], [])
      | d :: rest2 =>
        if d = '"' then
          match parseFieldQ rest2 with
          | none => none
          | some p => some ('"' :: p.1, p.2)
        else some ([], d :: rest2)
    else
      match parseFieldQ rest with
      | none => none
      | some p => some (c :: p.1, p.2)

/-- Parse one field, dispatching on whether it opens with a quote. -/
def fieldStart : List Char → Option (List Char × List Char)
  | [] => some ([], [])
  | c :: rest => if c = '"' then parseFieldQ rest else some (parseFieldU (c :: rest))

/-- Parse one CSV record up to and including its terminating newline (fuelled by the
number of fields). -/
def parseRecAux : Nat → List Char → Option (List (List Char) × List Char)
  | 0, _ => none
  | fuel + 1, s =>
    match fieldStart s with
    | none => none
    | some (f, rest) =>
      match rest with
      | [] => none
      | c :: rest2 =>
        if c = ',' then
          match parseRecAux fuel rest2 with
          | none => none
          | some (fs, r) => some (f :: fs, r)
        else if c = '\n' then some ([f], rest2)
        else none

/-- Parse a sequence of newline-terminated CSV records. -/
def parseRowsAux : Nat → List Char → Option (List (List (List Char)))
  | _, [] => some []
  | 0, _ :: _ => none
  | fuel + 1, c :: rest =>
    match parseRecAux ((c :: rest).length + 1) (c :: rest) with
    | none => none
    | some (row, r) =>
      match parseRowsAux fuel r with
      | none => none
      | some rows => some (row :: rows)

/-- Parse a whole CSV file. -/
def csvParse (s : List Char) : Option (List (List (List Char))) :=
  parseRowsAux (s.length + 1) s

/-- The separator context in which a field may legally end: end of file, a comma, or a
newline. -/
def sepStart : List Char → Bool
  | [] => true
  | c :: _ => decide (c = ',') || decide (c = '\n')

/-! ## Theorems -/

/-! ### Prefix and search lemmas -/

theorem pfx_extend (l : List Char) : ∀ (t s : List Char), pfx l t = true → pfx l (t ++ s) = true := by
  induction l with
  | nil => intro t s _; simp [pfx]
  | cons a as ih =>
    intro t s h
    cases t with
    | nil => simp [pfx] at h
    | cons b bs =>
      simp [pfx] at h ⊢
      exact ⟨h.1, ih bs s h.2⟩

theorem pfx_diverge :
    ∀ (l t s : List Char), pfx l t = false → pfx t l = false → pfx l (t ++ s) = false
  | [], _, _, h1, _ => by simp [pfx] at h1
  | _ :: _, [], _, _, h2 => by simp [pfx] at h2
  | a :: as, b :: bs, s, h1, h2 => by
    by_cases hab : a = b
    · subst hab
      have h1a : pfx as bs = false := by
        by_contra hc
        rw [Bool.not_eq_false] at hc
        simp [pfx, hc] at h1
      have h2a : pfx bs as = false := by
        by_contra hc
        rw [Bool.not_eq_false] at hc
        simp [pfx, hc] at h2
      have hrec := pfx_diverge as bs s h1a h2a
      simp [pfx, hrec]
    · simp [pfx, hab]

theorem pfx_self_append : ∀ (l s : List Char), pfx l (l ++ s) = true
  | [], _ => by simp [pfx]
  | a :: as, s => by simp [pfx, pfx_self_append as s]

theorem takeWhile_id_append :
    ∀ (id suffix : List Char), id.all idChar = true → headNotId suffix = true →
      (id ++ suffix).takeWhile idChar = id
  | [], suffix, _, hs => by
    cases suffix with
    | nil => rfl
    | cons c rest =>
      simp [headNotId] at hs
      simp [List.takeWhile, hs]
  | a :: as, suffix, hid, hs => by
    rw [List.all_cons, Bool.and_eq_true] at hid
    simp [List.takeWhile, hid.1, takeWhile_id_append as suffix hid.2 hs]

theorem matchLitAt_hit (lit : List Char) (c : Char) (cs suffix : List Char)
    (hid : (c :: cs).all idChar = true) (hs : headNotId suffix = true) :
    matchLitAt lit (lit ++ ((c :: cs) ++ suffix)) = some (c :: cs) := by
  have h1 : pfx lit (lit ++ ((c :: cs) ++ suffix)) = true := pfx_self_append _ _
  have h2 : (lit ++ ((c :: cs) ++ suffix)).drop lit.length = (c :: cs) ++ suffix :=
    List.drop_left _ _
  simp only [matchLitAt, h1, if_true, h2,
    takeWhile_id_append (c :: cs) suffix hid hs]
  simp

theorem matchAltsAt_none_of (lits : List (List Char)) (s : List Char)
    (h : ∀ lit ∈ lits, pfx lit s = false) : matchAltsAt lits s = none := by
  induction lits with
  | nil => rfl
  | cons lit rest ih =>
    simp [matchAltsAt, matchLitAt, h lit (List.mem_cons_self lit rest)]
    exact ih fun l hl => h l (List.mem_cons_of_mem lit hl)

theorem matchAltsAt_skip_head (lit : List Char) (lits : List (List Char)) (s : List Char)
    (h : pfx lit s = false) : matchAltsAt (lit :: lits) s = matchAltsAt lits s := by
  simp [matchAltsAt, matchLitAt, h]

theorem searchLits_cons_none (lits : List (List Char)) (c : Char) (rest : List Char)
    (h : matchAltsAt lits (c :: rest) = none) :
    searchLits lits (c :: rest) = searchLits lits rest := by
  simp [searchLits, h]

theorem searchLits_here (lits : List (List Char)) (s r : List Char)
    (h : matchAltsAt lits s = some r) (hne : s ≠ []) : searchLits lits s = some r := by
  cases s with
  | nil => exact absurd rfl hne
  | cons c rest => simp [searchLits, h]

theorem safeLit_spec (lit suffix : List Char) (h : safeLit lit suffix = true)
    (k : Nat) (hk : k ≤ lit.length) (hall : (lit.take k).all idChar = true) :
    pfx (lit.drop k) suffix = false := by
  have hmem : k ∈ List.range (lit.length + 1) := List.mem_range.mpr (by omega)
  have h2 := List.all_eq_true.mp h k hmem
  rw [hall] at h2
  simpa using h2

theorem safeLit_tail (a : Char) (lit suffix : List Char) (ha : idChar a = true)
    (h : safeLit (a :: lit) suffix = true) : safeLit lit suffix = true := by
  rw [safeLit, List.all_eq_true]
  intro k hmem
  have hk : k < lit.length + 1 := List.mem_range.mp hmem
  have h2 := List.all_eq_true.mp h (k + 1) (List.mem_range.mpr (by simp; omega))
  simpa [List.take_succ_cons, List.drop_succ_cons, ha] using h2

theorem safeLit_sound :
    ∀ (id lit suffix : List Char), safeLit lit suffix = true → id.all idChar = true →
      pfx lit (id ++ suffix) = false
  | [], lit, suffix, h, _ => by
    simpa using safeLit_spec lit suffix h 0 (by omega) (by simp)
  | c :: id2, lit, suffix, h, hid => by
    cases lit with
    | nil =>
      have h2 := safeLit_spec [] suffix h 0 (by omega) (by simp)
      simp [pfx] at h2
    | cons a lit2 =>
      by_cases hac : a = c
      · subst hac
        rw [List.all_cons, Bool.and_eq_true] at hid
        have hrec :=
          safeLit_sound id2 lit2 suffix (safeLit_tail a lit2 suffix hid.1 h) hid.2
        simp [pfx, hrec]
      · simp [pfx, hac]

theorem matchAltsAt_strad (lits : List (List Char)) (d : Char) (id suffix : List Char)
    (h : stradOK lits d suffix = true) (hid : id.all idChar = true) :
    matchAltsAt lits (d :: (id ++ suffix)) = none := by
  apply matchAltsAt_none_of
  intro lit hmem
  simp [stradOK, List.all_eq_true] at h
  have hl := h lit hmem
  cases lit with
  | nil => simp at hl
  | cons a lit2 =>
    by_cases had : a = d
    · subst had
      simp at hl
      simp [pfx, safeLit_sound id lit2 suffix hl hid]
    · simp [pfx, had]

theorem searchLits_idSkip :
    ∀ (id : List Char) (lits : List (List Char)) (s : List Char),
      litsHeadNonId lits = true → id.all idChar = true →
      searchLits lits (id ++ s) = searchLits lits s
  | [], _, _, _, _ => by simp
  | c :: id2, lits, s, hl, hid => by
    rw [List.all_cons, Bool.and_eq_true] at hid
    have hm : matchAltsAt lits (c :: (id2 ++ s)) = none := by
      apply matchAltsAt_none_of
      intro lit hmem
      have hlit := List.all_eq_true.mp hl lit hmem
      cases lit with
      | nil => simp at hlit
      | cons a lit2 =>
        simp only [Bool.not_eq_true'] at hlit
        have hac : ¬a = c := by
          intro he
          rw [he, hid.1] at hlit
          simp at hlit
        simp [pfx, hac]
    calc searchLits lits ((c :: id2) ++ s) = searchLits lits (id2 ++ s) := by
          rw [List.cons_append]; exact searchLits_cons_none lits c (id2 ++ s) hm
      _ = searchLits lits s := searchLits_idSkip id2 lits s hl hid.2

theorem searchLits_skip :
    ∀ (pre : List Char) (lits : List (List Char)) (g s : List Char),
      skipOK lits pre g = true →
      searchLits lits (pre ++ (g ++ s)) = searchLits lits (g ++ s)
  | [], _, _, _, _ => by simp
  | c :: pre, lits, g, s, h => by
    simp only [skipOK, Bool.and_eq_true] at h
    have hm : matchAltsAt lits ((c :: pre) ++ (g ++ s)) = none := by
      apply matchAltsAt_none_of
      intro lit hmem
      have hd := List.all_eq_true.mp h.1 lit hmem
      simp only [Bool.and_eq_true, Bool.not_eq_true'] at hd
      have h3 := pfx_diverge lit ((c :: pre) ++ g) s hd.1 hd.2
      rwa [List.append_assoc] at h3
    calc searchLits lits ((c :: pre) ++ (g ++ s)) = searchLits lits (pre ++ (g ++ s)) := by
          rw [List.cons_append]
          exact searchLits_cons_none lits c (pre ++ (g ++ s)) hm
      _ = searchLits lits (g ++ s) := searchLits_skip pre lits g s h.2

theorem containsSub_explode (pat : List Char) :
    ∀ (pre s : List Char), containsSub pat pre = true → containsSub pat (pre ++ s) = true
  | [], s, h => by
    cases s with
    | nil => exact h
    | cons c rest =>
      cases pat with
      | nil => simp [containsSub, pfx]
      | cons p ps => simp [containsSub, pfx] at h
  | c :: pre, s, h => by
    simp [containsSub] at h ⊢
    rcases h with h | h
    · exact Or.inl (pfx_extend pat (c :: pre) s h)
    · exact Or.inr (containsSub_explode pat pre s h)

theorem append_ne_nil_left (l s : List Char) (h : l ≠ []) : l ++ s ≠ [] := by
  cases l with
  | nil => exact absurd rfl h
  | cons a as => simp

theorem matchAltsAt_cons_some (lit : List Char) (lits : List (List Char)) (s r : List Char)
    (h : matchLitAt lit s = some r) : matchAltsAt (lit :: lits) s = some r := by
  simp [matchAltsAt, h]

theorem matchLitAt_hit_nil (lit : List Char) (c : Char) (cs : List Char)
    (hid : (c :: cs).all idChar = true) :
    matchLitAt lit (lit ++ (c :: cs)) = some (c :: cs) := by
  have h := matchLitAt_hit lit c cs [] hid (by decide)
  simpa using h

theorem searchLits_hit (lits : List (List Char)) (pre g r s : List Char)
    (hskip : skipOK lits pre g = true) (hg : g ≠ [])
    (hm : matchAltsAt lits (g ++ s) = some r) :
    searchLits lits (pre ++ (g ++ s)) = some r := by
  rw [searchLits_skip pre lits g s hskip]
  exact searchLits_here lits (g ++ s) r hm (append_ne_nil_left g s hg)

theorem searchLits_none_strad (lits : List (List Char)) (pre : List Char) (d : Char)
    (id suffix : List Char)
    (hskip : skipOK lits pre [d] = true) (hstrad : stradOK lits d suffix = true)
    (hheads : litsHeadNonId lits = true) (hid : id.all idChar = true)
    (htail : searchLits lits suffix = none) :
    searchLits lits (pre ++ ([d] ++ (id ++ suffix))) = none := by
  rw [searchLits_skip pre lits [d] (id ++ suffix) hskip]
  have he : ([d] : List Char) ++ (id ++ suffix) = d :: (id ++ suffix) := rfl
  rw [he, searchLits_cons_none lits d (id ++ suffix)
      (matchAltsAt_strad lits d id suffix hstrad hid),
    searchLits_idSkip id lits suffix hheads hid]
  exact htail

theorem searchLits_none_strad_nil (lits : List (List Char)) (pre : List Char) (d : Char)
    (id : List Char)
    (hskip : skipOK lits pre [d] = true) (hstrad : stradOK lits d [] = true)
    (hheads : litsHeadNonId lits = true) (hid : id.all idChar = true)
    (hnil : searchLits lits [] = none) :
    searchLits lits (pre ++ ([d] ++ id)) = none := by
  have h := searchLits_none_strad lits pre d id [] hskip hstrad hheads hid hnil
  simpa using h

theorem searchLits_none_flat (lits : List (List Char)) (pre id suffix : List Char)
    (hskip : skipOK lits pre [] = true) (hheads : litsHeadNonId lits = true)
    (hid : id.all idChar = true) (htail : searchLits lits suffix = none) :
    searchLits lits (pre ++ (id ++ suffix)) = none := by
  have h := searchLits_skip pre lits [] (id ++ suffix) hskip
  simp only [List.nil_append] at h
  rw [h, searchLits_idSkip id lits suffix hheads hid]
  exact htail

theorem searchLits_none_flat_nil (lits : List (List Char)) (pre id : List Char)
    (hskip : skipOK lits pre [] = true) (hheads : litsHeadNonId lits = true)
    (hid : id.all idChar = true) (hnil : searchLits lits [] = none) :
    searchLits lits (pre ++ id) = none := by
  have h := searchLits_none_flat lits pre id [] hskip hheads hid hnil
  simpa using h

theorem extract_id_of_pat1 (u id : List Char)
    (hmark : containsSub (s2l "google.com") u = true)
    (h1 : searchLits pat1 u = some id) : Drive.extract_id u = Except.ok id := by
  simp [Drive.extract_id, hmark, firstMatch, drivePatterns, h1]

theorem extract_id_of_pat2 (u id : List Char)
    (hmark : containsSub (s2l "google.com") u = true)
    (h1 : searchLits pat1 u = none) (h2 : searchLits pat2 u = some id) :
    Drive.extract_id u = Except.ok id := by
  simp [Drive.extract_id, hmark, firstMatch, drivePatterns, h1, h2]

theorem extract_id_of_pat3 (u id : List Char)
    (hmark : containsSub (s2l "google.com") u = true)
    (h1 : searchLits pat1 u = none) (h2 : searchLits pat2 u = none)
    (h3 : searchLits pat3 u = some id) :
    Drive.extract_id u = Except.ok id := by
  simp [Drive.extract_id, hmark, firstMatch, drivePatterns, h1, h2, h3]

theorem extract_id_of_pat4 (u id : List Char)
    (hmark : containsSub (s2l "google.com") u = true)
    (h1 : searchLits pat1 u = none) (h2 : searchLits pat2 u = none)
    (h3 : searchLits pat3 u = none) (h4 : searchLits pat4 u = some id) :
    Drive.extract_id u = Except.ok id := by
  simp [Drive.extract_id, hmark, firstMatch, drivePatterns, h1, h2, h3, h4]

theorem searchLits_pat1_spread (c : Char) (cs tail : List Char)
    (hid : (c :: cs).all idChar = true) (ht : headNotId tail = true) :
    searchLits pat1
      (s2l "https://docs.google.com" ++ (s2l "/spreadsheets/d/" ++ ((c :: cs) ++ tail))) =
      some (c :: cs) := by
  refine searchLits_hit pat1 (s2l "https://docs.google.com") (s2l "/spreadsheets/d/")
    (c :: cs) ((c :: cs) ++ tail) (by decide) (by decide) ?_
  simp only [pat1]
  exact matchAltsAt_cons_some _ _ _ _
    (matchLitAt_hit (s2l "/spreadsheets/d/") c cs tail hid ht)

theorem searchLits_pat1_doc (c : Char) (cs tail : List Char)
    (hid : (c :: cs).all idChar = true) (ht : headNotId tail = true) :
    searchLits pat1
      (s2l "https://docs.google.com" ++ (s2l "/document/d/" ++ ((c :: cs) ++ tail))) =
      some (c :: cs) := by
  refine searchLits_hit pat1 (s2l "https://docs.google.com") (s2l "/document/d/")
    (c :: cs) ((c :: cs) ++ tail) (by decide) (by decide) ?_
  simp only [pat1]
  rw [matchAltsAt_skip_head _ _ _
    (pfx_diverge (s2l "/spreadsheets/d/") (s2l "/document/d/") ((c :: cs) ++ tail)
      (by decide) (by decide))]
  exact matchAltsAt_cons_some _ _ _ _
    (matchLitAt_hit (s2l "/document/d/") c cs tail hid ht)

theorem searchLits_pat1_pres (c : Char) (cs tail : List Char)
    (hid : (c :: cs).all idChar = true) (ht : headNotId tail = true) :
    searchLits pat1
      (s2l "https://docs.google.com" ++ (s2l "/presentation/d/" ++ ((c :: cs) ++ tail))) =
      some (c :: cs) := by
  refine searchLits_hit pat1 (s2l "https://docs.google.com") (s2l "/presentation/d/")
    (c :: cs) ((c :: cs) ++ tail) (by decide) (by decide) ?_
  simp only [pat1]
  rw [matchAltsAt_skip_head _ _ _
    (pfx_diverge (s2l "/spreadsheets/d/") (s2l "/presentation/d/") ((c :: cs) ++ tail)
      (by decide) (by decide))]
  rw [matchAltsAt_skip_head _ _ _
    (pfx_diverge (s2l "/document/d/") (s2l "/presentation/d/") ((c :: cs) ++ tail)
      (by decide) (by decide))]
  exact matchAltsAt_cons_some _ _ _ _
    (matchLitAt_hit (s2l "/presentation/d/") c cs tail hid ht)

theorem searchLits_pat1_forms (c : Char) (cs tail : List Char)
    (hid : (c :: cs).all idChar = true) (ht : headNotId tail = true) :
    searchLits pat1
      (s2l "https://docs.google.com" ++ (s2l "/forms/d/" ++ ((c :: cs) ++ tail))) =
      some (c :: cs) := by
  refine searchLits_hit pat1 (s2l "https://docs.google.com") (s2l "/forms/d/")
    (c :: cs) ((c :: cs) ++ tail) (by decide) (by decide) ?_
  simp only [pat1]
  rw [matchAltsAt_skip_head _ _ _
    (pfx_diverge (s2l "/spreadsheets/d/") (s2l "/forms/d/") ((c :: cs) ++ tail)
      (by decide) (by decide))]
  rw [matchAltsAt_skip_head _ _ _
    (pfx_diverge (s2l "/document/d/") (s2l "/forms/d/") ((c :: cs) ++ tail)
      (by decide) (by decide))]
  rw [matchAltsAt_skip_head _ _ _
    (pfx_diverge (s2l "/presentation/d/") (s2l "/forms/d/") ((c :: cs) ++ tail)
      (by decide) (by decide))]
  exact matchAltsAt_cons_some _ _ _ _
    (matchLitAt_hit (s2l "/forms/d/") c cs tail hid ht)

/-- C2: for every input containing none of the host markers (google.com, drive.google.com,
docs.google.com), Drive.extract_id returns exactly the input, with no validation of its shape. -/
theorem extract_id_identity_no_marker (s : List Char)
    (h1 : containsSub (s2l "google.com") s = false)
    (h2 : containsSub (s2l "drive.google.com") s = false)
    (h3 : containsSub (s2l "docs.google.com") s = false) :
    Drive.extract_id s = Except.ok s := by
  simp [Drive.extract_id, h1, h2, h3]

/-- C2 witness: a raw ID string is returned unchanged. -/
theorem extract_id_identity_no_marker_witness :
    Drive.extract_id (s2l "1BxiMVs0XRA5nFMdKvBdBZjgmUUqptlbs74OgvE2upms") =
      Except.ok (s2l "1BxiMVs0XRA5nFMdKvBdBZjgmUUqptlbs74OgvE2upms") :=
  extract_id_identity_no_marker _ (by decide) (by decide) (by decide)

/-- C3: for every nonempty ID over [a-zA-Z0-9-_] embedded in one of the known URL shapes
(document/spreadsheet/presentation/forms path segment, file path segment, id= query
parameter, short /d/ path segment), Drive.extract_id returns exactly the embedded ID. -/
theorem extract_id_known_shapes (id : List Char) (hne : id ≠ []) (hid : id.all idChar = true) :
    Drive.extract_id (s2l "https://docs.google.com/spreadsheets/d/" ++ id ++ s2l "/edit") =
        Except.ok id ∧
    Drive.extract_id (s2l "https://docs.google.com/document/d/" ++ id ++ s2l "/edit") =
        Except.ok id ∧
    Drive.extract_id (s2l "https://docs.google.com/presentation/d/" ++ id ++ s2l "/edit") =
        Except.ok id ∧
    Drive.extract_id (s2l "https://docs.google.com/forms/d/" ++ id ++ s2l "/edit") =
        Except.ok id ∧
    Drive.extract_id (s2l "https://drive.google.com/file/d/" ++ id ++ s2l "/view") =
        Except.ok id ∧
    Drive.extract_id (s2l "https://drive.google.com/open?id=" ++ id) = Except.ok id ∧
    Drive.extract_id (s2l "https://docs.google.com/d/" ++ id) = Except.ok id := by
  obtain ⟨c, cs, rfl⟩ := List.exists_cons_of_ne_nil hne
  refine ⟨?_, ?_, ?_, ?_, ?_, ?_, ?_⟩
  · rw [show s2l "https://docs.google.com/spreadsheets/d/" =
        s2l "https://docs.google.com" ++ s2l "/spreadsheets/d/" from by decide,
      List.append_assoc, List.append_assoc]
    exact extract_id_of_pat1 _ _ (containsSub_explode _ _ _ (by decide))
      (searchLits_pat1_spread c cs (s2l "/edit") hid (by decide))
  · rw [show s2l "https://docs.google.com/document/d/" =
        s2l "https://docs.google.com" ++ s2l "/document/d/" from by decide,
      List.append_assoc, List.append_assoc]
    exact extract_id_of_pat1 _ _ (containsSub_explode _ _ _ (by decide))
      (searchLits_pat1_doc c cs (s2l "/edit") hid (by decide))
  · rw [show s2l "https://docs.google.com/presentation/d/" =
        s2l "https://docs.google.com" ++ s2l "/presentation/d/" from by decide,
      List.append_assoc, List.append_assoc]
    exact extract_id_of_pat1 _ _ (containsSub_explode _ _ _ (by decide))
      (searchLits_pat1_pres c cs (s2l "/edit") hid (by decide))
  · rw [show s2l "https://docs.google.com/forms/d/" =
        s2l "https://docs.google.com" ++ s2l "/forms/d/" from by decide,
      List.append_assoc, List.append_assoc]
    exact extract_id_of_pat1 _ _ (containsSub_explode _ _ _ (by decide))
      (searchLits_pat1_forms c cs (s2l "/edit") hid (by decide))
  · rw [show s2l "https://drive.google.com/file/d/" =
        s2l "https://drive.google.com" ++ s2l "/file/d/" from by decide,
      List.append_assoc, List.append_assoc]
    have hpat1 : searchLits pat1
        (s2l "https://drive.google.com" ++ (s2l "/file/d/" ++ ((c :: cs) ++ s2l "/view"))) =
        none := by
      rw [show (s2l "/file/d/" : List Char) = s2l "/file/d" ++ ['/'] from by decide,
        List.append_assoc, ← List.append_assoc]
      exact searchLits_none_strad pat1 _ '/' (c :: cs) (s2l "/view")
        (by decide) (by decide) (by decide) hid (by decide)
    have hpat2 : searchLits pat2
        (s2l "https://drive.google.com" ++ (s2l "/file/d/" ++ ((c :: cs) ++ s2l "/view"))) =
        some (c :: cs) := by
      refine searchLits_hit pat2 (s2l "https://drive.google.com") (s2l "/file/d/")
        (c :: cs) ((c :: cs) ++ s2l "/view") (by decide) (by decide) ?_
      simp only [pat2]
      exact matchAltsAt_cons_some _ _ _ _
        (matchLitAt_hit (s2l "/file/d/") c cs (s2l "/view") hid (by decide))
    exact extract_id_of_pat2 _ _ (containsSub_explode _ _ _ (by decide)) hpat1 hpat2
  · rw [show s2l "https://drive.google.com/open?id=" =
        s2l "https://drive.google.com/open" ++ s2l "?id=" from by decide, List.append_assoc]
    have hpat1 : searchLits pat1
        (s2l "https://drive.google.com/open" ++ (s2l "?id=" ++ (c :: cs))) = none := by
      rw [← List.append_assoc]
      exact searchLits_none_flat_nil pat1 _ (c :: cs) (by decide) (by decide) hid (by decide)
    have hpat2 : searchLits pat2
        (s2l "https://drive.google.com/open" ++ (s2l "?id=" ++ (c :: cs))) = none := by
      rw [← List.append_assoc]
      exact searchLits_none_flat_nil pat2 _ (c :: cs) (by decide) (by decide) hid (by decide)
    have hpat3 : searchLits pat3
        (s2l "https://drive.google.com/open" ++ (s2l "?id=" ++ (c :: cs))) = some (c :: cs) := by
      refine searchLits_hit pat3 (s2l "https://drive.google.com/open") (s2l "?id=")
        (c :: cs) (c :: cs) (by decide) (by decide) ?_
      simp only [pat3]
      exact matchAltsAt_cons_some _ _ _ _ (matchLitAt_hit_nil (s2l "?id=") c cs hid)
    exact extract_id_of_pat3 _ _ (containsSub_explode _ _ _ (by decide)) hpat1 hpat2 hpat3
  · rw [show s2l "https://docs.google.com/d/" =
        s2l "https://docs.google.com" ++ s2l "/d/" from by decide, List.append_assoc]
    have e1 : s2l "https://docs.google.com" ++ (s2l "/d/" ++ (c :: cs)) =
        (s2l "https://docs.google.com" ++ s2l "/d") ++ (['/'] ++ (c :: cs)) := by
      rw [show (s2l "/d/" : List Char) = s2l "/d" ++ ['/'] from by decide,
        List.append_assoc, ← List.append_assoc]
    have hpat1 : searchLits pat1
        (s2l "https://docs.google.com" ++ (s2l "/d/" ++ (c :: cs))) = none := by
      rw [e1]
      exact searchLits_none_strad_nil pat1 _ '/' (c :: cs)
        (by decide) (by decide) (by decide) hid (by decide)
    have hpat2 : searchLits pat2
        (s2l "https://docs.google.com" ++ (s2l "/d/" ++ (c :: cs))) = none := by
      rw [e1]
      exact searchLits_none_strad_nil pat2 _ '/' (c :: cs)
        (by decide) (by decide) (by decide) hid (by decide)
    have hpat3 : searchLits pat3
        (s2l "https://docs.google.com" ++ (s2l "/d/" ++ (c :: cs))) = none := by
      rw [e1]
      exact searchLits_none_strad_nil pat3 _ '/' (c :: cs)
        (by decide) (by decide) (by decide) hid (by decide)
    have hpat4 : searchLits pat4
        (s2l "https://docs.google.com" ++ (s2l "/d/" ++ (c :: cs))) = some (c :: cs) := by
      refine searchLits_hit pat4 (s2l "https://docs.google.com") (s2l "/d/")
        (c :: cs) (c :: cs) (by decide) (by decide) ?_
      simp only [pat4]
      exact matchAltsAt_cons_some _ _ _ _ (matchLitAt_hit_nil (s2l "/d/") c cs hid)
    exact extract_id_of_pat4 _ _ (containsSub_explode _ _ _ (by decide))
      hpat1 hpat2 hpat3 hpat4

/-- C3 witness: the documented scenario URL yields the documented ID. -/
theorem extract_id_known_shapes_witness :
    Drive.extract_id
        (s2l "https://docs.google.com/spreadsheets/d/1BxiMVs0XRA5nFMdKvBdBZjgmUUqptlbs74OgvE2upms/edit") =
      Except.ok (s2l "1BxiMVs0XRA5nFMdKvBdBZjgmUUqptlbs74OgvE2upms") := by
  have h := (extract_id_known_shapes (s2l "1BxiMVs0XRA5nFMdKvBdBZjgmUUqptlbs74OgvE2upms")
    (by decide) (by decide)).1
  rw [show s2l "https://docs.google.com/spreadsheets/d/1BxiMVs0XRA5nFMdKvBdBZjgmUUqptlbs74OgvE2upms/edit" =
      s2l "https://docs.google.com/spreadsheets/d/" ++
        s2l "1BxiMVs0XRA5nFMdKvBdBZjgmUUqptlbs74OgvE2upms" ++ s2l "/edit" from by decide]
  exact h

/-- C4: an input containing a host marker on which none of the five patterns matches makes
Drive.extract_id fail with the ValueError message rather than return a value. -/
theorem extract_id_unrecognized_error (u : List Char)
    (hmark : (containsSub (s2l "google.com") u || containsSub (s2l "drive.google.com") u ||
        containsSub (s2l "docs.google.com") u) = true)
    (h1 : searchLits pat1 u = none) (h2 : searchLits pat2 u = none)
    (h3 : searchLits pat3 u = none) (h4 : searchLits pat4 u = none)
    (h5 : searchLits pat5 u = none) :
    Drive.extract_id u = Except.error (s2l "Could not extract file ID from URL: " ++ u) := by
  simp [Drive.extract_id, hmark, firstMatch, drivePatterns, h1, h2, h3, h4, h5]

/-- C4 witness: the documented example URL raises the ValueError. -/
theorem extract_id_unrecognized_error_witness :
    Drive.extract_id (s2l "https://docs.google.com/unknown/xyz") =
      Except.error
        (s2l "Could not extract file ID from URL: https://docs.google.com/unknown/xyz") := by
  have h := extract_id_unrecognized_error (s2l "https://docs.google.com/unknown/xyz")
    (by decide) (by decide) (by decide) (by decide) (by decide) (by decide)
  have e : s2l "Could not extract file ID from URL: " ++ s2l "https://docs.google.com/unknown/xyz" =
      s2l "Could not extract file ID from URL: https://docs.google.com/unknown/xyz" := by decide
  rw [h, e]

/-- C5: the resource-type path patterns are tried before the generic id= fallback, so a
compound URL carrying both a /kind/d/ path ID and an id= query parameter yields the
path ID, for each of the four resource kinds. -/
theorem extract_id_path_beats_query (id1 id2 : List Char) (hne : id1 ≠ [])
    (hid : id1.all idChar = true) :
    Drive.extract_id
        (s2l "https://docs.google.com/spreadsheets/d/" ++ id1 ++ (s2l "/edit?id=" ++ id2)) =
      Except.ok id1 ∧
    Drive.extract_id
        (s2l "https://docs.google.com/document/d/" ++ id1 ++ (s2l "/edit?id=" ++ id2)) =
      Except.ok id1 ∧
    Drive.extract_id
        (s2l "https://docs.google.com/presentation/d/" ++ id1 ++ (s2l "/edit?id=" ++ id2)) =
      Except.ok id1 ∧
    Drive.extract_id
        (s2l "https://docs.google.com/forms/d/" ++ id1 ++ (s2l "/edit?id=" ++ id2)) =
      Except.ok id1 := by
  obtain ⟨c, cs, rfl⟩ := List.exists_cons_of_ne_nil hne
  have ht : headNotId (s2l "/edit?id=" ++ id2) = true := rfl
  refine ⟨?_, ?_, ?_, ?_⟩
  · rw [show s2l "https://docs.google.com/spreadsheets/d/" =
        s2l "https://docs.google.com" ++ s2l "/spreadsheets/d/" from by decide,
      List.append_assoc, List.append_assoc]
    exact extract_id_of_pat1 _ _ (containsSub_explode _ _ _ (by decide))
      (searchLits_pat1_spread c cs (s2l "/edit?id=" ++ id2) hid ht)
  · rw [show s2l "https://docs.google.com/document/d/" =
        s2l "https://docs.google.com" ++ s2l "/document/d/" from by decide,
      List.append_assoc, List.append_assoc]
    exact extract_id_of_pat1 _ _ (containsSub_explode _ _ _ (by decide))
      (searchLits_pat1_doc c cs (s2l "/edit?id=" ++ id2) hid ht)
  · rw [show s2l "https://docs.google.com/presentation/d/" =
        s2l "https://docs.google.com" ++ s2l "/presentation/d/" from by decide,
      List.append_assoc, List.append_assoc]
    exact extract_id_of_pat1 _ _ (containsSub_explode _ _ _ (by decide))
      (searchLits_pat1_pres c cs (s2l "/edit?id=" ++ id2) hid ht)
  · rw [show s2l "https://docs.google.com/forms/d/" =
        s2l "https://docs.google.com" ++ s2l "/forms/d/" from by decide,
      List.append_assoc, List.append_assoc]
    exact extract_id_of_pat1 _ _ (containsSub_explode _ _ _ (by decide))
      (searchLits_pat1_forms c cs (s2l "/edit?id=" ++ id2) hid ht)

/-- C5 witness: a concrete compound URL yields the path ID, not the query ID. -/
theorem extract_id_path_beats_query_witness :
    Drive.extract_id (s2l "https://docs.google.com/spreadsheets/d/PATHID/edit?id=QUERYID") =
      Except.ok (s2l "PATHID") := by
  have h := (extract_id_path_beats_query (s2l "PATHID") (s2l "QUERYID")
    (by decide) (by decide)).1
  rw [show s2l "https://docs.google.com/spreadsheets/d/PATHID/edit?id=QUERYID" =
      s2l "https://docs.google.com/spreadsheets/d/" ++ s2l "PATHID" ++
        (s2l "/edit?id=" ++ s2l "QUERYID") from by decide]
  exact h

/-- C1 counterexample: constructing the GoogleSheets facade on a URL with a host marker
but no recognizable pattern lets the ValueError from Drive.extract_id cross the public
boundary of __init__, contradicting the claim that no exception propagates out of any
facade entry point including construction. -/
theorem facade_construction_raises :
    GoogleSheets.init (s2l "https://docs.google.com/unknown/xyz")
        (s2l "credentials.json") (s2l "token.json") =
      Except.error
        (s2l "Could not extract file ID from URL: https://docs.google.com/unknown/xyz") := rfl

/-- C1 (amended): every facade operation catches all exceptions at the operation boundary
and returns the None (read) or False (write) sentinel, and no exception escapes an
operation; facade construction however is not protected: GoogleSheets.__init__ propagates
the ValueError raised by Drive.extract_id on an unrecognized URL. -/
theorem facade_boundary_amended :
    (∀ (jc co : Bool) (ir : Except (List Char) (List Char)) (e : List Char),
        Jira.get_issue jc co ir ≠ Except.error e) ∧
    (∀ (self : Confluence) (q : List Char) (sk ct : Option (List Char)) (u : Bool)
        (resp : Except (List Char) (Nat × List Char)) (e : List Char),
        Confluence.search_content self q sk ct u resp ≠ Except.error e) ∧
    (∀ (sv : Bool) (ur : Except (List Char) Nat) (e : List Char),
        GoogleSheets.write_cell sv ur ≠ Except.error e) ∧
    (∀ (jc co : Bool) (msg : List Char),
        Jira.get_issue jc co (Except.error msg) = Except.ok none) ∧
    (∀ (self : Confluence) (q : List Char) (sk ct : Option (List Char)) (u : Bool)
        (msg : List Char),
        Confluence.search_content self q sk ct u (Except.error msg) = Except.ok none) ∧
    (∀ (sv : Bool) (msg : List Char),
        GoogleSheets.write_cell sv (Except.error msg) = Except.ok false) ∧
    (∀ (s cf tf e : List Char), Drive.extract_id s = Except.error e →
        GoogleSheets.init s cf tf = Except.error e) := by
  refine ⟨?_, ?_, ?_, ?_, ?_, ?_, ?_⟩
  · intro jc co ir e
    simp only [Jira.get_issue]
    split
    · simp
    · cases ir <;> simp
  · intro self q sk ct u resp e
    cases resp with
    | error m => simp [Confluence.search_content]
    | ok p =>
      cases p with
      | mk st body =>
        by_cases h : st = 200 <;> simp [Confluence.search_content, h]
  · intro sv ur e
    simp only [GoogleSheets.write_cell]
    split
    · simp
    · cases ur <;> simp
  · intro jc co msg
    simp only [Jira.get_issue]
    split <;> rfl
  · intro self q sk ct u msg
    rfl
  · intro sv msg
    simp only [GoogleSheets.write_cell]
    split <;> rfl
  · intro s cf tf e h
    simp [GoogleSheets.init, h]

/-- C1 witness: the operation sentinel and the constructor leak at concrete inputs. -/
theorem facade_boundary_amended_witness :
    Drive.extract_id (s2l "https://docs.google.com/unknown/abc") =
      Except.error (s2l "Could not extract file ID from URL: " ++
        s2l "https://docs.google.com/unknown/abc") ∧
    GoogleSheets.init (s2l "https://docs.google.com/unknown/abc")
        (s2l "credentials.json") (s2l "token.json") =
      Except.error (s2l "Could not extract file ID from URL: " ++
        s2l "https://docs.google.com/unknown/abc") ∧
    Jira.get_issue true true (Except.error (s2l "boom")) = Except.ok none :=
  ⟨rfl, facade_boundary_amended.2.2.2.2.2.2 _ _ _ _ rfl,
    facade_boundary_amended.2.2.2.1 true true (s2l "boom")⟩

/-- C6 counterexample: GoogleSheets.find_spreadsheet_by_name cannot be carrying
(name, id, type) candidate tuples as the claim states: its request asks the vendor only
for id and name (sheet.py line 230), so two ambiguous searches over files that differ
only in their types produce identical outcomes — the type is not part of what the
resolver reports; what it does report for the ambiguity are the (name, id) pairs. -/
theorem find_spreadsheet_by_name_no_type_carried :
    GoogleSheets.find_spreadsheet_by_name_pipeline
        [⟨s2l "Report", s2l "id1", s2l "application/vnd.google-apps.spreadsheet"⟩,
          ⟨s2l "Report", s2l "id2", s2l "application/vnd.google-apps.spreadsheet"⟩] =
      GoogleSheets.find_spreadsheet_by_name_pipeline
        [⟨s2l "Report", s2l "id1", s2l "application/vnd.google-apps.document"⟩,
          ⟨s2l "Report", s2l "id2", s2l "application/vnd.google-apps.folder"⟩] ∧
    (GoogleSheets.find_spreadsheet_by_name_outcome
        [(s2l "Report", s2l "id1"), (s2l "Report", s2l "id2")]).2 =
      [(s2l "Report", s2l "id1"), (s2l "Report", s2l "id2")] := by
  decide

/-- C6 (amended): name resolution maps the match count to its outcome: zero matches return
None and report no candidates (NotFound); exactly one match returns that file's ID; two
or more matches return None while reporting every candidate for caller disambiguation —
(name, id, type) tuples for Drive.find_by_name, but only (name, id) pairs for
GoogleSheets.find_spreadsheet_by_name, whose query requests just id and name — and the
resolver never guesses one of them. -/
theorem name_resolution_classification :
    (∀ files : List DriveFile,
      (files = [] → Drive.find_by_name_outcome files = (none, [])) ∧
      (∀ f, files = [f] → Drive.find_by_name_outcome files = (some f.id, [])) ∧
      (2 ≤ files.length →
        (Drive.find_by_name_outcome files).1 = none ∧
        (Drive.find_by_name_outcome files).2 =
          files.map fun f => (f.name, f.id, typeDesc f.mimeType))) ∧
    (∀ files : List (List Char × List Char),
      (files = [] → GoogleSheets.find_spreadsheet_by_name_outcome files = (none, [])) ∧
      (∀ f, files = [f] →
        GoogleSheets.find_spreadsheet_by_name_outcome files = (some f.2, [])) ∧
      (2 ≤ files.length →
        (GoogleSheets.find_spreadsheet_by_name_outcome files).1 = none ∧
        (GoogleSheets.find_spreadsheet_by_name_outcome files).2 = files)) := by
  constructor
  · intro files
    refine ⟨?_, ?_, ?_⟩
    · rintro rfl; rfl
    · rintro f rfl; rfl
    · intro hlen
      rcases files with _ | ⟨a, _ | ⟨b, rest⟩⟩
      · simp at hlen
      · simp at hlen
      · exact ⟨rfl, rfl⟩
  · intro files
    refine ⟨?_, ?_, ?_⟩
    · rintro rfl; rfl
    · rintro f rfl; rfl
    · intro hlen
      rcases files with _ | ⟨a, _ | ⟨b, rest⟩⟩
      · simp at hlen
      · simp at hlen
      · exact ⟨rfl, rfl⟩

/-- C6 witness: a concrete two-candidate ambiguity reports both candidates and returns
None; a concrete single match returns its ID. -/
theorem name_resolution_classification_witness :
    Drive.find_by_name_outcome
        [⟨s2l "Report", s2l "id1", s2l "application/vnd.google-apps.spreadsheet"⟩,
          ⟨s2l "Report", s2l "id2", s2l "application/vnd.google-apps.document"⟩] =
      (none, [(s2l "Report", s2l "id1", s2l "spreadsheet"),
        (s2l "Report", s2l "id2", s2l "document")]) ∧
    GoogleSheets.find_spreadsheet_by_name_outcome [(s2l "Report", s2l "idA")] =
      (some (s2l "idA"), []) := by
  constructor
  · have h := (name_resolution_classification.1
      [⟨s2l "Report", s2l "id1", s2l "application/vnd.google-apps.spreadsheet"⟩,
        ⟨s2l "Report", s2l "id2", s2l "application/vnd.google-apps.document"⟩]).2.2
      (by decide)
    exact Prod.ext h.1 (h.2.trans (by decide))
  · exact (name_resolution_classification.2 [(s2l "Report", s2l "idA")]).2.1
      (s2l "Report", s2l "idA") rfl

/-- C7: when the loaded credential is invalid, expired, with a refresh token present, and
the refresh call raises, authenticate falls through to the interactive consent flow
instead of raising: a successful consent proceeds (writing and using the new credential,
with the final result determined by the service build), and only a failing consent flow
makes the routine return the False sentinel. -/
theorem authenticate_refresh_failure_falls_through (c : Creds) (buildOk : Bool)
    (consentRes : Except Unit Creds)
    (hv : c.valid = false) (he : c.expired = true) (hr : c.refresh_token = true) :
    (∀ c2, consentRes = Except.ok c2 →
      GoogleSheets.authenticate (some c) (Except.error ()) consentRes buildOk =
        ⟨buildOk, some c2, some c2⟩) ∧
    (consentRes = Except.error () →
      GoogleSheets.authenticate (some c) (Except.error ()) consentRes buildOk =
        ⟨false, none, none⟩) := by
  constructor
  · rintro c2 rfl
    simp [GoogleSheets.authenticate, authNeeded, canRefresh, hv, he, hr]
  · rintro rfl
    simp [GoogleSheets.authenticate, authNeeded, canRefresh, hv, he, hr]

/-- C7 witness: the fall-through at a concrete expired credential, for consent success
and consent failure. -/
theorem authenticate_refresh_failure_falls_through_witness :
    GoogleSheets.authenticate (some ⟨false, true, true⟩) (Except.error ())
        (Except.ok ⟨true, false, true⟩) true =
      ⟨true, some ⟨true, false, true⟩, some ⟨true, false, true⟩⟩ ∧
    GoogleSheets.authenticate (some ⟨false, true, true⟩) (Except.error ())
        (Except.error ()) true = ⟨false, none, none⟩ :=
  ⟨(authenticate_refresh_failure_falls_through ⟨false, true, true⟩ true
      (Except.ok ⟨true, false, true⟩) rfl rfl rfl).1 ⟨true, false, true⟩ rfl,
    (authenticate_refresh_failure_falls_through ⟨false, true, true⟩ true
      (Except.error ()) rfl rfl rfl).2 rfl⟩

/-- C8: token-file frame condition: a successfully loaded, valid credential is used
unchanged and the token file is not written; every successful refresh and every
successful consent writes the new credential to the token file. -/
theorem authenticate_token_file_frame (load : Option Creds) (c c2 : Creds)
    (refreshRes consentRes : Except Unit Creds) (buildOk : Bool) :
    (load = some c → c.valid = true →
      GoogleSheets.authenticate load refreshRes consentRes buildOk =
        ⟨buildOk, none, some c⟩) ∧
    (load = some c → c.valid = false → c.expired = true → c.refresh_token = true →
      refreshRes = Except.ok c2 →
      (GoogleSheets.authenticate load refreshRes consentRes buildOk).wrote = some c2) ∧
    ((load = none ∨ (load = some c ∧ c.valid = false ∧ c.expired = true ∧
        c.refresh_token = true ∧ refreshRes = Except.error ())) →
      consentRes = Except.ok c2 →
      (GoogleSheets.authenticate load refreshRes consentRes buildOk).wrote = some c2) := by
  refine ⟨?_, ?_, ?_⟩
  · rintro rfl hv
    simp [GoogleSheets.authenticate, authNeeded, hv]
  · rintro rfl hv he hr rfl
    simp [GoogleSheets.authenticate, authNeeded, canRefresh, hv, he, hr]
  · rintro (rfl | ⟨rfl, hv, he, hr, rfl⟩) rfl
    · simp [GoogleSheets.authenticate, authNeeded, canRefresh]
    · simp [GoogleSheets.authenticate, authNeeded, canRefresh, hv, he, hr]

/-- C8 witness: the frame condition at concrete credentials — valid load writes nothing,
a successful refresh writes the refreshed credential, a successful consent writes the
consented credential. -/
theorem authenticate_token_file_frame_witness :
    GoogleSheets.authenticate (some ⟨true, false, false⟩) (Except.error ())
        (Except.error ()) true = ⟨true, none, some ⟨true, false, false⟩⟩ ∧
    (GoogleSheets.authenticate (some ⟨false, true, true⟩) (Except.ok ⟨true, false, true⟩)
        (Except.error ()) false).wrote = some ⟨true, false, true⟩ ∧
    (GoogleSheets.authenticate none (Except.error ()) (Except.ok ⟨true, false, true⟩)
        true).wrote = some ⟨true, false, true⟩ :=
  ⟨(authenticate_token_file_frame (some ⟨true, false, false⟩) ⟨true, false, false⟩
      ⟨true, false, true⟩ (Except.error ()) (Except.error ()) true).1 rfl rfl,
    (authenticate_token_file_frame (some ⟨false, true, true⟩) ⟨false, true, true⟩
      ⟨true, false, true⟩ (Except.ok ⟨true, false, true⟩) (Except.error ()) false).2.1
      rfl rfl rfl rfl rfl,
    (authenticate_token_file_frame none ⟨false, true, true⟩ ⟨true, false, true⟩
      (Except.error ()) (Except.ok ⟨true, false, true⟩) true).2.2 (Or.inl rfl) rfl⟩

/-- C10: with space_key None, use_default_space True and a configured default space, the
CQL sent by search_content is the query with the default-space clause appended, placed
before any content-type clause; with use_default_space False, or an explicit space_key,
or no configured default, the default-space clause is not added. -/
theorem search_content_default_space_cql (b q : List Char) (d t s : List Char)
    (ds : Option (List Char)) (hd : d ≠ []) (ht : t ≠ []) (hs : s ≠ []) :
    (Confluence.search_content_cql (Confluence.init b (some d)) q none none true =
      q ++ s2l " AND space = \"" ++ d ++ s2l "\"") ∧
    (Confluence.search_content_cql (Confluence.init b (some d)) q none (some t) true =
      q ++ s2l " AND space = \"" ++ d ++ s2l "\"" ++
        (s2l " AND type = \"" ++ t ++ s2l "\"")) ∧
    (Confluence.search_content_cql (Confluence.init b (some d)) q none none false = q) ∧
    (Confluence.search_content_cql (Confluence.init b ds) q (some s) none true =
      q ++ s2l " AND space = \"" ++ s ++ s2l "\"") ∧
    (Confluence.search_content_cql (Confluence.init b none) q none none true = q) := by
  obtain ⟨cd, ds', rfl⟩ := List.exists_cons_of_ne_nil hd
  obtain ⟨ct2, ts', rfl⟩ := List.exists_cons_of_ne_nil ht
  obtain ⟨cs2, ss', rfl⟩ := List.exists_cons_of_ne_nil hs
  refine ⟨?_, ?_, ?_, ?_, ?_⟩
  · rw [show (s2l " AND space = \"" : List Char) =
        s2l " AND " ++ s2l "space = " ++ ['"'] from by decide,
      show (s2l "\"" : List Char) = ['"'] from by decide]
    simp [Confluence.search_content_cql, Confluence.init, pyFalsyStr, joinAnd,
      List.append_assoc]
  · rw [show (s2l " AND space = \"" : List Char) =
        s2l " AND " ++ s2l "space = " ++ ['"'] from by decide,
      show (s2l " AND type = \"" : List Char) =
        s2l " AND " ++ s2l "type = " ++ ['"'] from by decide,
      show (s2l "\"" : List Char) = ['"'] from by decide]
    simp [Confluence.search_content_cql, Confluence.init, pyFalsyStr, joinAnd,
      List.append_assoc]
  · simp [Confluence.search_content_cql, Confluence.init, pyFalsyStr, joinAnd]
  · rw [show (s2l " AND space = \"" : List Char) =
        s2l " AND " ++ s2l "space = " ++ ['"'] from by decide,
      show (s2l "\"" : List Char) = ['"'] from by decide]
    simp [Confluence.search_content_cql, Confluence.init, pyFalsyStr, joinAnd,
      List.append_assoc]
  · simp [Confluence.search_content_cql, Confluence.init, pyFalsyStr, joinAnd]

/-- C10 witness: concrete query, default space and content type. -/
theorem search_content_default_space_cql_witness :
    Confluence.search_content_cql
        (Confluence.init (s2l "https://x.atlassian.net/wiki/") (some (s2l "ENG")))
        (s2l "text ~ foo") none none true =
      s2l "text ~ foo" ++ s2l " AND space = \"" ++ s2l "ENG" ++ s2l "\"" ∧
    Confluence.search_content_cql
        (Confluence.init (s2l "https://x.atlassian.net/wiki/") (some (s2l "ENG")))
        (s2l "text ~ foo") none none false = s2l "text ~ foo" :=
  ⟨(search_content_default_space_cql (s2l "https://x.atlassian.net/wiki/")
      (s2l "text ~ foo") (s2l "ENG") (s2l "page") (s2l "DOC") none
      (by decide) (by decide) (by decide)).1,
    (search_content_default_space_cql (s2l "https://x.atlassian.net/wiki/")
      (s2l "text ~ foo") (s2l "ENG") (s2l "page") (s2l "DOC") none
      (by decide) (by decide) (by decide)).2.2.1⟩

/-! ### CSV round-trip lemmas -/

theorem parseFieldU_encode :
    ∀ (f rest : List Char), needsQuote f = false → sepStart rest = true →
      parseFieldU (f ++ rest) = (f, rest)
  | [], rest, _, hr => by
    cases rest with
    | nil => rfl
    | cons c r2 =>
      simp [sepStart] at hr
      rcases hr with h | h <;> simp [parseFieldU, h]
  | a :: f2, rest, hf, hr => by
    rw [needsQuote, List.any_cons, Bool.or_eq_false_iff] at hf
    obtain ⟨ha, hf2⟩ := hf
    simp only [Bool.or_eq_false_iff, decide_eq_false_iff_not] at ha
    have hcond : ¬(a = ',' ∨ a = '\n') := by
      rintro (h | h)
      · exact ha.1.1.1 h
      · exact ha.1.2 h
    rw [List.cons_append]
    simp only [parseFieldU, hcond, if_false]
    rw [parseFieldU_encode f2 rest hf2 hr]

theorem parseFieldQ_encode :
    ∀ (f rest : List Char), sepStart rest = true →
      parseFieldQ (dupQuotes f ++ ('"' :: rest)) = some (f, rest)
  | [], rest, hr => by
    cases rest with
    | nil => rfl
    | cons d r2 =>
      simp [sepStart] at hr
      have hd : ¬d = '"' := by rcases hr with h | h <;> simp [h]
      simp [dupQuotes, parseFieldQ, hd]
  | a :: f2, rest, hr => by
    by_cases ha : a = '"'
    · subst ha
      simp only [dupQuotes, if_pos rfl, List.cons_append]
      simp [parseFieldQ, parseFieldQ_encode f2 rest hr]
    · have hd : dupQuotes (a :: f2) = a :: dupQuotes f2 := by
        simp [dupQuotes, ha]
      rw [hd, List.cons_append, parseFieldQ.eq_def]
      simp only []
      rw [if_neg ha, parseFieldQ_encode f2 rest hr]

theorem encodeField_quoted (f : List Char) (h : needsQuote f = true) :
    encodeField f = '"' :: (dupQuotes f ++ ['"']) := by
  simp [encodeField, h]

theorem encodeField_unquoted (f : List Char) (h : needsQuote f = false) :
    encodeField f = f := by
  simp [encodeField, h]

theorem fieldStart_encode (f rest : List Char) (hr : sepStart rest = true) :
    fieldStart (encodeField f ++ rest) = some (f, rest) := by
  by_cases hq : needsQuote f = true
  · rw [encodeField_quoted f hq, List.cons_append]
    simp only [fieldStart, if_pos rfl]
    rw [List.append_assoc, List.singleton_append]
    exact parseFieldQ_encode f rest hr
  · have hq2 : needsQuote f = false := by rwa [Bool.not_eq_true] at hq
    rw [encodeField_unquoted f hq2]
    cases f with
    | nil =>
      cases rest with
      | nil => rfl
      | cons c r2 =>
        have hc : ¬c = '"' := by
          simp [sepStart] at hr
          rcases hr with h | h <;> simp [h]
        simp only [List.nil_append, fieldStart]
        rw [if_neg hc]
        have h0 := parseFieldU_encode [] (c :: r2) rfl hr
        rw [List.nil_append] at h0
        rw [h0]
    | cons a f2 =>
      have ha : ¬a = '"' := by
        rw [needsQuote, List.any_cons, Bool.or_eq_false_iff] at hq2
        have h2 := hq2.1
        simp only [Bool.or_eq_false_iff, decide_eq_false_iff_not] at h2
        exact h2.1.1.2
      rw [List.cons_append]
      simp only [fieldStart]
      rw [if_neg ha, ← List.cons_append]
      rw [parseFieldU_encode (a :: f2) rest hq2 hr]

theorem parseRecAux_encode :
    ∀ (r : List (List Char)) (fuel : Nat) (rest : List Char), r ≠ [] →
      r.length ≤ fuel → parseRecAux fuel (encodeRow r ++ '\n' :: rest) = some (r, rest)
  | [], _, _, hne, _ => absurd rfl hne
  | [f], fuel, rest, _, hfuel => by
    cases fuel with
    | zero => simp at hfuel
    | succ fuel2 =>
      simp only [encodeRow, parseRecAux]
      rw [fieldStart_encode f ('\n' :: rest) rfl]
      simp
  | f :: g :: gs, fuel, rest, _, hfuel => by
    cases fuel with
    | zero => simp at hfuel
    | succ fuel2 =>
      have hrec := parseRecAux_encode (g :: gs) fuel2 rest (by simp)
        (by simp at hfuel ⊢; omega)
      simp only [encodeRow, parseRecAux]
      rw [List.append_assoc, List.cons_append,
        fieldStart_encode f (',' :: (encodeRow (g :: gs) ++ '\n' :: rest)) rfl]
      simp [hrec]

theorem length_le_encodeRow : ∀ r : List (List Char), r.length ≤ (encodeRow r).length + 1
  | [] => by simp
  | [f] => by simp
  | f :: g :: gs => by
    have h := length_le_encodeRow (g :: gs)
    simp only [encodeRow, List.length_append, List.length_cons] at h ⊢
    omega

theorem length_le_csvEncode : ∀ rows : List (List (List Char)),
    rows.length ≤ (csvEncode rows).length
  | [] => by simp [csvEncode]
  | r :: rs => by
    have h := length_le_csvEncode rs
    simp only [csvEncode, List.length_append, List.length_cons] at h ⊢
    omega

theorem parseRowsAux_encode :
    ∀ (rows : List (List (List Char))) (fuel : Nat), rows.length ≤ fuel →
      (∀ r ∈ rows, r ≠ []) → parseRowsAux fuel (csvEncode rows) = some rows
  | [], fuel, _, _ => by cases fuel <;> rfl
  | r :: rs, fuel, hfuel, hne => by
    cases fuel with
    | zero => simp at hfuel
    | succ fuel2 =>
      have hr : r ≠ [] := hne r (List.mem_cons_self r rs)
      have hrow : csvEncode (r :: rs) = encodeRow r ++ '\n' :: csvEncode rs := rfl
      cases hcons : encodeRow r ++ '\n' :: csvEncode rs with
      | nil => exact absurd hcons (by cases encodeRow r <;> simp)
      | cons c rest0 =>
        rw [hrow, hcons]
        simp only [parseRowsAux]
        rw [← hcons]
        have hle : r.length ≤ (encodeRow r ++ '\n' :: csvEncode rs).length + 1 := by
          have h1 := length_le_encodeRow r
          simp only [List.length_append, List.length_cons]
          omega
        rw [parseRecAux_encode r _ (csvEncode rs) hr hle]
        simp only []
        rw [parseRowsAux_encode rs fuel2 (by simp at hfuel ⊢; omega)
          (fun x hx => hne x (List.mem_cons_of_mem r hx))]

/-- C9: for every rectangular grid with a nonempty header row followed by at least one
data row, save_to_csv succeeds (returns True) and parsing the written file back as CSV
yields the original header and data rows verbatim. -/
theorem save_to_csv_round_trip (hdr : List (List Char)) (rows : List (List (List Char)))
    (hW : 0 < hdr.length) (_hrows : rows ≠ [])
    (hrect : ∀ r ∈ rows, r.length = hdr.length) :
    (save_to_csv (hdr :: rows)).1 = true ∧
    csvParse (save_to_csv (hdr :: rows)).2 = some (hdr :: rows) := by
  refine ⟨rfl, ?_⟩
  have hne : ∀ r ∈ hdr :: rows, r ≠ [] := by
    intro r hrm
    rcases List.mem_cons.mp hrm with rfl | hmem
    · exact List.length_pos.mp hW
    · have h2 := hrect r hmem
      apply List.length_pos.mp
      omega
  show parseRowsAux ((csvEncode (hdr :: rows)).length + 1) (csvEncode (hdr :: rows)) =
    some (hdr :: rows)
  apply parseRowsAux_encode
  · have h3 := length_le_csvEncode (hdr :: rows)
    omega
  · exact hne

/-- C9 witness: a concrete header-plus-one-data-row grid with a comma and a quote in the
data cells round-trips exactly and save returns True. -/
theorem save_to_csv_round_trip_witness :
    (save_to_csv [[s2l "name", s2l "value"], [s2l "a,b", s2l "c\"d"]]).1 = true ∧
    csvParse (save_to_csv [[s2l "name", s2l "value"], [s2l "a,b", s2l "c\"d"]]).2 =
      some [[s2l "name", s2l "value"], [s2l "a,b", s2l "c\"d"]] :=
  save_to_csv_round_trip [s2l "name", s2l "value"] [[s2l "a,b", s2l "c\"d"]]
    (by decide) (by decide) (by decide)

end Flowkit
